import Mathlib

/-!
Shallow embedding of the quote–payment–job settlement pipeline of the
bitcoin-metered-api service: pricing rules, the SQLite-backed state store,
the quotes service, the job workers and the POST /v1/paycall orchestrator,
with theorems checking the specified properties against these definitions.
Timestamps are modelled as natural numbers (milliseconds); JSON payload
values as an inductive `JSVal`; JavaScript numbers as rationals.
-/

namespace MeteredApi

/-- A JSON-ish JavaScript value as it appears in request/response payloads.
`nan` stands for the IEEE NaN produced by arithmetic on non-numbers;
string-to-number coercion of numeric strings is not modelled (no code path
under study depends on it). -/
inductive JSVal where
  | num (q : ℚ)
  | str (s : String)
  | bool (b : Bool)
  | nullv
  | nan
  | undefined
  | obj (fields : List (String × JSVal))

/-- A JavaScript object used as a function's `args`: field name to value. -/
abbrev Args := List (String × JSVal)

/-- JavaScript falsiness: `0`, `''`, `false`, `null`, `NaN`, `undefined`. -/
def JSVal.falsy : JSVal → Bool
  | .num q => q == 0
  | .str s => s == ""
  | .bool b => !b
  | .nullv => true
  | .nan => true
  | .undefined => true
  | .obj _ => false

/-- Property read `args.k`: `undefined` when the field is absent. -/
def jsGet (args : Args) (k : String) : JSVal :=
  (args.lookup k).getD .undefined

/-- Field lookup on an object value (for stating facts about results). -/
def JSVal.obj? : JSVal → String → Option JSVal
  | .obj fs, k => fs.lookup k
  | _, _ => none

/-- JavaScript ToNumber on the modelled values; `none` stands for NaN.
Numeric strings are not modelled (mapped to NaN). -/
def jsToNumber : JSVal → Option ℚ
  | .num q => some q
  | .bool b => some (if b then 1 else 0)
  | .nullv => some 0
  | _ => none

/-- JavaScript `a * b` on the modelled values. -/
def jsMul (a b : JSVal) : JSVal :=
  match jsToNumber a, jsToNumber b with
  | some x, some y => .num (x * y)
  | _, _ => .nan

/-- The unit-count mapping a quote request may carry (`tokens`, `images`,
`characters`, `seconds`, `amount`); `none` models an absent field. -/
structure Units where
  tokens : Option ℚ := none
  images : Option ℚ := none
  characters : Option ℚ := none
  seconds : Option ℚ := none
  amount : Option ℚ := none
deriving DecidableEq

/-- JavaScript `x || d` on an optional number: the default is taken when the
field is absent or holds the falsy number `0`. -/
def jsOrQ (x : Option ℚ) (d : ℚ) : ℚ :=
  match x with
  | none => d
  | some v => if v = 0 then d else v

/-- JavaScript `x || d` on an optional string: the default is taken when the
field is absent or holds the empty string. -/
def jsOrStr (x : Option String) (d : String) : String :=
  match x with
  | none => d
  | some s => if s = "" then d else s

/-- `Math.ceil` on a rational, computably (`-⌊-q⌋`); `ratCeil_eq_ceil` below
identifies it with Mathlib's `⌈q⌉`. -/
def ratCeil (q : ℚ) : ℤ :=
  -Rat.floor (-q)

/-- `PRICING_RULES.summarize`: 5 sats per 100 tokens, default 1000 tokens. -/
def summarizeRule (units : Units) : ℚ :=
  let tokens := jsOrQ units.tokens 1000
  ((ratCeil (tokens / 100 * 5) : ℤ) : ℚ)

/-- `PRICING_RULES.generate_image`: 50 sats per image, default 1 image. -/
def generateImageRule (units : Units) : ℚ :=
  let images := jsOrQ units.images 1
  images * 50

/-- `PRICING_RULES.translate`: 3 sats per 100 characters, default 500. -/
def translateRule (units : Units) : ℚ :=
  let chars := jsOrQ units.characters 500
  ((ratCeil (chars / 100 * 3) : ℤ) : ℚ)

/-- `PRICING_RULES.compute`: 10 sats per second, default 1 second. -/
def computeRule (units : Units) : ℚ :=
  let seconds := jsOrQ units.seconds 1
  seconds * 10

/-- `PRICING_RULES.default`: 10 sats per generic amount, default 1. -/
def defaultRule (units : Units) : ℚ :=
  let amount := jsOrQ units.amount 1
  amount * 10

/-- `PRICING_RULES[endpoint] || PRICING_RULES.default` as used by
`QuotesService.createQuote`. -/
def pricingFor (endpoint : String) (units : Units) : ℚ :=
  if endpoint = "summarize" then summarizeRule units
  else if endpoint = "generate_image" then generateImageRule units
  else if endpoint = "translate" then translateRule units
  else if endpoint = "compute" then computeRule units
  else defaultRule units

/-- The exact (unrounded) charge each pricing rule is computing, stated from
the spec's words: rate times relevant unit count, before any rounding. Used
to compare the implemented rules with the never-undercharge requirement. -/
def specExactCharge (endpoint : String) (units : Units) : ℚ :=
  if endpoint = "summarize" then jsOrQ units.tokens 1000 / 100 * 5
  else if endpoint = "generate_image" then jsOrQ units.images 1 * 50
  else if endpoint = "translate" then jsOrQ units.characters 500 / 100 * 3
  else if endpoint = "compute" then jsOrQ units.seconds 1 * 10
  else jsOrQ units.amount 1 * 10

/-- Status column of the `quotes` table. -/
inductive QuoteStatus where
  | active
  | expired
  | used
deriving DecidableEq

/-- Status column of the `payments` table. -/
inductive PaymentStatus where
  | pending
  | verified
  | failed
deriving DecidableEq

/-- Status column of the `jobs` table. -/
inductive JobStatus where
  | queued
  | processing
  | completed
  | failed
deriving DecidableEq

/-- A row of the `quotes` table. The `units` JSON string column is modelled
structurally; ISO timestamp columns are modelled as milliseconds. -/
structure Quote where
  id : String
  endpoint : String
  units : Units
  price_sats : ℚ
  expires_at : ℕ
  nonce : String
  receiver_pubkey : String
  asp_url : String
  status : QuoteStatus
  created_at : ℕ
deriving DecidableEq

/-- A row of the `payments` table (the `created_at` default column is not
consulted by any code under study and is omitted). -/
structure Payment where
  id : String
  quote_id : String
  sender_pubkey : String
  paid_sats : ℚ
  ark_ref : String
  vtxo_spend : String
  proof : String
  status : PaymentStatus
deriving DecidableEq

/-- A row of the `jobs` table; `args_json` and `result_json` are modelled
structurally as `JSVal` (the JSON round-trip through strings is the
identity at this level). -/
structure Job where
  id : String
  payment_id : String
  endpoint : String
  args : Args
  status : JobStatus
  result : Option JSVal
  error_message : Option String
  completed_at : Option ℕ

/-- The receipt object of a successful `POST /v1/paycall` response;
`settlement_ref` is the raw (possibly absent) verifier field. -/
structure Receipt where
  settlement_ref : Option String
  paid_sats : ℚ
  job_id : String
  payment_id : String

/-- The success response of `POST /v1/paycall` (`status:"ok"` plus result and
receipt); this is also the payload serialised into the idempotency cache. -/
structure SuccessResponse where
  result : Option JSVal
  receipt : Receipt

/-- A row of the `idempotency_keys` table; `response_json` is modelled as the
structured response it serialises. -/
structure IdemEntry where
  key : String
  response : SuccessResponse
  expires_at : ℕ

/-- The four relations of the SQLite store (`DB` class). -/
structure DBState where
  quotes : List Quote
  payments : List Payment
  jobs : List Job
  idempotency_keys : List IdemEntry

/-- `DB.getQuote`: `SELECT * FROM quotes WHERE id = ?`. -/
def DBState.getQuote (db : DBState) (id : String) : Option Quote :=
  db.quotes.find? (fun q => q.id == id)

/-- `DB.updateQuoteStatus`: `UPDATE quotes SET status = ? WHERE id = ?`
(unconditional on the current status). -/
def DBState.updateQuoteStatus (db : DBState) (id : String) (status : QuoteStatus) :
    DBState :=
  { db with quotes := db.quotes.map (fun q => if q.id = id then { q with status := status } else q) }

/-- `DB.createQuote`: INSERT a quote row. -/
def DBState.createQuote (db : DBState) (q : Quote) : DBState :=
  { db with quotes := db.quotes ++ [q] }

/-- `DB.createPayment`: INSERT a payment row. -/
def DBState.createPayment (db : DBState) (p : Payment) : DBState :=
  { db with payments := db.payments ++ [p] }

/-- `DB.createJob`: INSERT a job row. -/
def DBState.createJob (db : DBState) (j : Job) : DBState :=
  { db with jobs := db.jobs ++ [j] }

/-- `DB.getJob`: `SELECT * FROM jobs WHERE id = ?`. -/
def DBState.getJob (db : DBState) (id : String) : Option Job :=
  db.jobs.find? (fun j => j.id == id)

/-- The `Partial<...>` update object `DB.updateJob` accepts: a `some` field is
written, a `none` field is left alone. -/
structure JobUpdate where
  status : Option JobStatus := none
  result_json : Option JSVal := none
  error_message : Option String := none
  completed_at : Option ℕ := none

/-- Apply a `JobUpdate` to one job row, field by field, as the built UPDATE
statement of `DB.updateJob` does. -/
def applyJobUpdate (u : JobUpdate) (j : Job) : Job :=
  let j1 := match u.status with
    | some s => { j with status := s }
    | none => j
  let j2 := match u.result_json with
    | some r => { j1 with result := some r }
    | none => j1
  let j3 := match u.error_message with
    | some m => { j2 with error_message := some m }
    | none => j2
  match u.completed_at with
  | some t => { j3 with completed_at := some t }
  | none => j3

/-- `DB.updateJob`: update the chosen fields of the job row with this id. -/
def DBState.updateJob (db : DBState) (id : String) (u : JobUpdate) : DBState :=
  { db with jobs := db.jobs.map (fun j => if j.id = id then applyJobUpdate u j else j) }

/-- `DB.getIdempotencyKey`:
`SELECT response_json FROM idempotency_keys WHERE key = ? AND expires_at > now`. -/
def DBState.getIdempotencyKey (db : DBState) (nowMs : ℕ) (key : String) :
    Option IdemEntry :=
  db.idempotency_keys.find? (fun e => e.key == key && decide (nowMs < e.expires_at))

/-- `DB.setIdempotencyKey`: `INSERT OR REPLACE` with
`expires_at = now + ttlSeconds * 1000`. -/
def DBState.setIdempotencyKey (db : DBState) (nowMs : ℕ) (key : String)
    (resp : SuccessResponse) (ttlSeconds : ℕ) : DBState :=
  { db with idempotency_keys :=
      db.idempotency_keys.filter (fun e => e.key ≠ key) ++
        [{ key := key, response := resp, expires_at := nowMs + ttlSeconds * 1000 }] }

/-- `DB.cleanupExpired`: purge expired idempotency entries and move `active`
quotes past their expiry to `expired`. -/
def DBState.cleanupExpired (db : DBState) (nowMs : ℕ) : DBState :=
  { db with
    idempotency_keys := db.idempotency_keys.filter (fun e => ¬ e.expires_at < nowMs),
    quotes := db.quotes.map (fun q =>
      if q.status = .active ∧ q.expires_at < nowMs then { q with status := .expired } else q) }

/-- `QuotesService.getValidQuote`: fetch, expire on a past `expires_at`
(note: before looking at the current status), then require `active`. Returns
the quote (when valid) and the possibly updated store. -/
def getValidQuote (db : DBState) (nowMs : ℕ) (quoteId : String) :
    Option Quote × DBState :=
  match db.getQuote quoteId with
  | none => (none, db)
  | some quote =>
    if quote.expires_at < nowMs then (none, db.updateQuoteStatus quoteId .expired)
    else if quote.status ≠ .active then (none, db)
    else (some quote, db)

/-- `QuotesService.markQuoteUsed`. -/
def markQuoteUsed (db : DBState) (quoteId : String) : DBState :=
  db.updateQuoteStatus quoteId .used

/-- `RoundInfo` returned by `ASPClient.getCurrentRound`. -/
structure RoundInfo where
  roundId : String
  timestamp : String
  status : String

/-- The body of a successful `GET /v1/quote` response. -/
structure QuoteReply where
  endpoint : String
  units : Units
  price_sats : ℚ
  expires_at : ℕ
  quote_id : String
  asp_url : String
  receiver_pubkey : String
  round_hint : String

/-- `QuotesService.createQuote`. The ASP round lookup (`await
aspClient.getCurrentRound()`) is the injected `roundResult`: `.error` models
the awaited promise rejecting, and — as in the source, where the await is not
guarded — it aborts the call before any row is inserted. Fresh ids and the
clock are parameters. -/
def createQuote (roundResult : Except String RoundInfo)
    (receiverPubkey aspUrl : String) (nowMs : ℕ) (quoteId nonce : String)
    (endpoint : String) (reqUnits : Option Units) (db : DBState) :
    Except String (QuoteReply × DBState) :=
  if endpoint = "" then .error "endpoint is required"
  else
    let units := reqUnits.getD { tokens := some 1000 }
    let priceSats := pricingFor endpoint units
    match roundResult with
    | .error e => .error e
    | .ok round =>
      let expiresAt := nowMs + 30000
      let quote : Quote :=
        { id := quoteId, endpoint := endpoint, units := units,
          price_sats := priceSats, expires_at := expiresAt, nonce := nonce,
          receiver_pubkey := receiverPubkey, asp_url := aspUrl,
          status := .active, created_at := nowMs }
      .ok ({ endpoint := endpoint, units := units, price_sats := priceSats,
             expires_at := expiresAt, quote_id := quoteId, asp_url := aspUrl,
             receiver_pubkey := receiverPubkey, round_hint := round.roundId },
           db.createQuote quote)

/-- Rendering of a modelled value inside a JavaScript template literal.
The shortest-decimal formatting of IEEE floats is abstracted: an integer
rational renders as its integer, any other rational as `num/den`. -/
def jsDisplay : JSVal → String
  | .num q => if q.den = 1 then toString q.num else toString q
  | .str s => s
  | .bool b => if b then "true" else "false"
  | .nullv => "null"
  | .nan => "NaN"
  | .undefined => "undefined"
  | .obj _ => "[object Object]"

/-- JavaScript `v || d` on values (the default replaces a falsy value). -/
def jsOrVal (v d : JSVal) : JSVal :=
  if v.falsy then d else v

/-- JavaScript `v.length` for the modelled values: string length, and
`undefined` on non-strings (no other modelled value has a length). -/
def jsLength : JSVal → JSVal
  | .str s => .num (s.length : ℚ)
  | _ => .undefined

/-- `text.split(/\s+/)`: runs of whitespace separate the tokens; a leading or
trailing run contributes one empty token; the empty string splits to one
empty token. -/
def jsSplitWs (s : String) : List String :=
  if s = "" then [""]
  else
    let chars := s.toList
    let core := (s.split (fun c => c.isWhitespace)).filter (fun t => t ≠ "")
    let pre : List String :=
      if (chars.head?.map Char.isWhitespace).getD false then [""] else []
    let post : List String :=
      if (chars.getLast?.map Char.isWhitespace).getD false then [""] else []
    pre ++ core ++ post

/-- `WORKERS.summarize`: requires truthy `text`, summarises by taking the
first `min 50 (words/3)` words. A truthy non-string `text` makes `text.split`
throw a TypeError, which the executor's catch turns into a failed job. -/
def summarizeWorker (args : Args) : Except String JSVal :=
  let text := jsGet args "text"
  if text.falsy then .error "text is required"
  else
    match text with
    | .str s =>
      let words := jsSplitWs s
      let summaryLength := min 50 (words.length / 3)
      let summary := String.intercalate " " (words.take summaryLength) ++ "..."
      .ok (.obj [("summary", .str summary),
                 ("original_length", .num (s.length : ℚ)),
                 ("summary_length", .num (summary.length : ℚ)),
                 ("tokens_processed", .num (words.length : ℚ))])
    | _ => .error "text.split is not a function"

/-- One byte percent-encoded, upper-case hex. -/
def percentEncodeByte (b : UInt8) : String :=
  let digits := "0123456789ABCDEF".toList
  String.mk ['%', digits.getD (b.toNat / 16) '0', digits.getD (b.toNat % 16) '0']

/-- The characters `encodeURIComponent` leaves unescaped. -/
def isUnreservedUri (c : Char) : Bool :=
  c.isAlphanum || c = '-' || c = '_' || c = '.' || c = '!' || c = '~' || c = '*' ||
    c.toNat = 39 || c = '(' || c = ')'

/-- `encodeURIComponent`: percent-encode every UTF-8 byte of each reserved
character. -/
def encodeURIComponent (s : String) : String :=
  s.toList.foldl (fun acc c =>
    if isUnreservedUri c then acc.push c
    else acc ++ String.join (((String.mk [c]).toUTF8.toList).map percentEncodeByte)) ""

/-- `WORKERS.generate_image`: requires truthy `prompt`; `width`/`height`
default to 512 when falsy; returns a placeholder URL. -/
def generateImageWorker (args : Args) : Except String JSVal :=
  let prompt := jsGet args "prompt"
  let width := jsOrVal (jsGet args "width") (.num 512)
  let height := jsOrVal (jsGet args "height") (.num 512)
  if prompt.falsy then .error "prompt is required"
  else
    .ok (.obj [("image_url", .str ("https://via.placeholder.com/" ++ jsDisplay width ++
                  "x" ++ jsDisplay height ++ "?text=" ++ encodeURIComponent (jsDisplay prompt))),
               ("prompt", prompt),
               ("dimensions", .obj [("width", width), ("height", height)]),
               ("processing_time_ms", .num 150)])

/-- `WORKERS.translate`: requires truthy `text`; `from`/`to` default to
`en`/`es`; the mock translation prefixes the text. -/
def translateWorker (args : Args) : Except String JSVal :=
  let text := jsGet args "text"
  let fromLang := jsOrVal (jsGet args "from") (.str "en")
  let toLang := jsOrVal (jsGet args "to") (.str "es")
  if text.falsy then .error "text is required"
  else
    let translated :=
      "[" ++ jsDisplay fromLang ++ "→" ++ jsDisplay toLang ++ "] " ++ jsDisplay text
    .ok (.obj [("original", text),
               ("translated", .str translated),
               ("from_language", fromLang),
               ("to_language", toLang),
               ("characters_processed", jsLength text)])

/-- `Math.sqrt` on the modelled values: NaN off the numbers or below zero;
the IEEE square root is abstracted to the rational `Rat.sqrt` (exact on
squares; no property under study depends on this branch's value). -/
def jsSqrt (v : JSVal) : JSVal :=
  match jsToNumber v with
  | some q => if q < 0 then .nan else .num (Rat.sqrt q)
  | none => .nan

/-- `WORKERS.compute`: requires truthy `operation`; dispatches on it; note
that `value` is read but never validated, so a missing `value` flows into the
arithmetic as `undefined` and yields NaN rather than an error. `computed_at`
renders the clock. -/
def computeWorker (nowMs : ℕ) (args : Args) : Except String JSVal :=
  let operation := jsGet args "operation"
  let value := jsGet args "value"
  if operation.falsy then .error "operation is required"
  else
    let outcome : Except String JSVal :=
      match operation with
      | .str "square" => .ok (jsMul value value)
      | .str "sqrt" => .ok (jsSqrt value)
      | .str "double" => .ok (jsMul value (.num 2))
      | op => .error ("unknown operation: " ++ jsDisplay op)
    match outcome with
    | .error e => .error e
    | .ok result =>
      .ok (.obj [("operation", operation),
                 ("input", value),
                 ("output", result),
                 ("computed_at", .str (toString nowMs))])

/-- The `WORKERS` registry keyed by endpoint name. -/
def findWorker (nowMs : ℕ) (endpoint : String) :
    Option (Args → Except String JSVal) :=
  if endpoint = "summarize" then some summarizeWorker
  else if endpoint = "generate_image" then some generateImageWorker
  else if endpoint = "translate" then some translateWorker
  else if endpoint = "compute" then some (computeWorker nowMs)
  else none

/-- `JobRequest` turned into a row by `JobsService.createJob`; the fresh
nanoid is a parameter. Returns the inserted row and the store. -/
def createJob (db : DBState) (jobId : String) (endpoint : String) (args : Args)
    (paymentId : String) : Job × DBState :=
  let job : Job :=
    { id := jobId, payment_id := paymentId, endpoint := endpoint, args := args,
      status := .queued, result := none, error_message := none, completed_at := none }
  (job, db.createJob job)

/-- Status of a `JobResult`. -/
inductive JRStatus where
  | ok
  | error
deriving DecidableEq

/-- `JobResult` returned by `JobsService.executeJob`. -/
structure JobResult where
  status : JRStatus
  result : Option JSVal := none
  error : Option String := none

/-- The try-block body of `executeJob` around the worker: a missing worker
is a thrown error, a found worker runs on the job's parsed args. -/
def runWorkerFor (nowMs : ℕ) (endpoint : String) (args : Args) :
    Except String JSVal :=
  match findWorker nowMs endpoint with
  | none => .error ("no worker for endpoint: " ++ endpoint)
  | some w => w args

/-- `JobsService.executeJob`: mark processing, look up and run the worker,
then record completion or failure. A missing job throws (`.error` here),
escaping to the route's catch-all; a missing worker or a worker throw is
caught inside and recorded as a failed job. -/
def executeJob (db : DBState) (nowMs : ℕ) (jobId : String) :
    Except String (JobResult × DBState) :=
  match db.getJob jobId with
  | none => .error "job not found"
  | some job =>
    let db1 := db.updateJob jobId { status := some .processing }
    match runWorkerFor nowMs job.endpoint job.args with
    | .ok result =>
      .ok ({ status := .ok, result := some result },
           db1.updateJob jobId
             { status := some .completed, result_json := some result,
               completed_at := some nowMs })
    | .error msg =>
      .ok ({ status := .error, error := some msg },
           db1.updateJob jobId
             { status := some .failed, error_message := some msg,
               completed_at := some nowMs })

/-- The argument object of `ArkVerifier.verifySpend`. -/
structure VerifyRequest where
  aspUrl : String
  receiver : String
  expectedSats : ℚ
  spendBlob : String
  proof : String
deriving DecidableEq

/-- `VerificationResult` returned by the payment verifier. -/
structure VerificationResult where
  ok : Bool
  reason : Option String := none
  settlementRef : Option String := none
  actualSats : Option ℚ := none
  roundId : Option String := none
deriving DecidableEq

/-- `ArkVerifier.validatePaymentFormat`: both blobs at least 10 characters
and drawn from the base64 alphabet. -/
def validatePaymentFormat (spendBlob proof : String) : Bool :=
  if spendBlob.length < 10 ∨ proof.length < 10 then false
  else
    let base64ish := fun (s : String) =>
      s.toList.all (fun c => c.isAlphanum || c = '+' || c = '/' || c = '=')
    base64ish spendBlob && base64ish proof

/-- `ArkVerifier.verifySpend` in `free` payments mode: structural checks,
then acceptance with `actualSats = expectedSats` and a settlement reference
built from the ASP round and the clock. Used to instantiate the orchestrator
theorems on a concrete verifier. -/
def freeVerify (roundId : String) (nowMs : ℕ) (req : VerifyRequest) :
    VerificationResult :=
  if req.spendBlob = "" ∨ req.proof = "" then
    { ok := false, reason := some "missing_payment_data" }
  else if !validatePaymentFormat req.spendBlob req.proof then
    { ok := false, reason := some "invalid_payment_format" }
  else
    { ok := true,
      settlementRef := some ("ark:round:" ++ roundId ++ "/tx:free_mode_" ++ toString nowMs),
      actualSats := some req.expectedSats,
      roundId := some roundId }

/-- The parsed body of `POST /v1/paycall` (`PayCallBodySchema`). -/
structure PayCallBody where
  quote_id : String
  vtxo_spend : String
  proof : String
  sender_pubkey : String
  request_endpoint : String
  request_args : Args

/-- The response of `POST /v1/paycall`, one constructor per exit of the
route handler. -/
inductive PaycallResponse where
  | cached (resp : SuccessResponse)
  | validationError
  | expiredOrMissingQuote
  | endpointMismatch
  | paymentInvalid (details : Option String)
  | jobExecutionFailed (message : Option String)
  | internalError (message : String)
  | ok (resp : SuccessResponse)

/-- Where a settlement attempt stands when its handler reaches the
`await verifier.verifySpend(...)` suspension point: already finished with a
response, or suspended holding the quote row it validated. -/
inductive SettlePhase where
  | done (r : PaycallResponse)
  | verifying (quote : Quote) (b : PayCallBody)

/-- The synchronous prefix of the `POST /v1/paycall` handler, up to the
`await` of the payment verifier: idempotency lookup, body parse (`none`
models a Zod rejection), quote validation and the endpoint match. -/
def settleStep1 (nowMs : ℕ) (idempotencyKey : String) (body : Option PayCallBody)
    (db : DBState) : SettlePhase × DBState :=
  let cached :=
    if idempotencyKey ≠ "" then db.getIdempotencyKey nowMs idempotencyKey else none
  match cached with
  | some entry => (.done (.cached entry.response), db)
  | none =>
    match body with
    | none => (.done .validationError, db)
    | some b =>
      match getValidQuote db nowMs b.quote_id with
      | (none, db1) => (.done .expiredOrMissingQuote, db1)
      | (some quote, db1) =>
        if quote.endpoint ≠ b.request_endpoint then (.done .endpointMismatch, db1)
        else (.verifying quote b, db1)

/-- The argument object the route builds for `verifier.verifySpend` from the
validated quote and the request body. -/
def verifyReqOf (quote : Quote) (b : PayCallBody) : VerifyRequest :=
  { aspUrl := quote.asp_url, receiver := quote.receiver_pubkey,
    expectedSats := quote.price_sats, spendBlob := b.vtxo_spend, proof := b.proof }

/-- The payment row the route persists after the verifier accepts:
`paid_sats = verified.actualSats || quote.price_sats`,
`ark_ref = verified.settlementRef || ''`, status `verified`. -/
def paymentRow (verified : VerificationResult) (quote : Quote) (b : PayCallBody)
    (paymentId : String) : Payment :=
  { id := paymentId, quote_id := b.quote_id, sender_pubkey := b.sender_pubkey,
    paid_sats := jsOrQ verified.actualSats quote.price_sats,
    ark_ref := jsOrStr verified.settlementRef "",
    vtxo_spend := b.vtxo_spend, proof := b.proof, status := .verified }

/-- The queued job row the route creates after recording the payment. -/
def jobRow (jobId : String) (b : PayCallBody) (paymentId : String) : Job :=
  { id := jobId, payment_id := paymentId, endpoint := b.request_endpoint,
    args := b.request_args, status := .queued, result := none,
    error_message := none, completed_at := none }

/-- The store after the three post-acceptance writes that precede job
execution, in the route's order: payment inserted, quote marked used
(unconditionally), job row inserted. -/
def recordedDb (verified : VerificationResult) (pid jid : String) (quote : Quote)
    (b : PayCallBody) (db : DBState) : DBState :=
  (markQuoteUsed (db.createPayment (paymentRow verified quote b pid))
    b.quote_id).createJob (jobRow jid b pid)

/-- The 200 response body of a settled paycall: the job's result plus the
receipt (`settlement_ref` raw from the verifier, `paid_sats` with the same
`|| price_sats` fallback used for the payment row). -/
def successOf (verified : VerificationResult) (quote : Quote)
    (result : JobResult) (jobId paymentId : String) : SuccessResponse :=
  { result := result.result,
    receipt :=
      { settlement_ref := verified.settlementRef,
        paid_sats := jsOrQ verified.actualSats quote.price_sats,
        job_id := jobId, payment_id := paymentId } }

/-- The rest of the `POST /v1/paycall` handler, resumed after the verifier
answers: record the payment, mark the quote used (unconditionally), create
the job row (its id is the fresh `jobId`), execute it, assemble the response
and cache it under the idempotency key on success. -/
def settleStep2 (verify : VerifyRequest → VerificationResult) (nowMs : ℕ)
    (paymentId jobId : String) (idempotencyKey : String) (quote : Quote)
    (b : PayCallBody) (db : DBState) : PaycallResponse × DBState :=
  let verified := verify (verifyReqOf quote b)
  if !verified.ok then (.paymentInvalid verified.reason, db)
  else
    match executeJob (recordedDb verified paymentId jobId quote b db) nowMs jobId with
    | .error msg => (.internalError msg, recordedDb verified paymentId jobId quote b db)
    | .ok (result, db5) =>
      if result.status = .error then (.jobExecutionFailed result.error, db5)
      else
        let response := successOf verified quote result jobId paymentId
        (.ok response,
          if idempotencyKey ≠ "" then
            db5.setIdempotencyKey nowMs idempotencyKey response 120
          else db5)

/-- What one `POST /v1/paycall` invocation produced: the response, the store,
and whether the payment verifier was invoked. -/
structure PaycallOutcome where
  response : PaycallResponse
  db : DBState
  verifierCalled : Bool

/-- The whole `POST /v1/paycall` handler: the synchronous prefix, then —
when it suspends at the verifier — the resumption, run back to back with no
interleaved request. -/
def paycall (verify : VerifyRequest → VerificationResult) (nowMs : ℕ)
    (paymentId jobId : String) (idempotencyKey : String)
    (body : Option PayCallBody) (db : DBState) : PaycallOutcome :=
  match settleStep1 nowMs idempotencyKey body db with
  | (.done r, db1) => { response := r, db := db1, verifierCalled := false }
  | (.verifying quote b, db1) =>
    let rd := settleStep2 verify nowMs paymentId jobId idempotencyKey quote b db1
    { response := rd.1, db := rd.2, verifierCalled := true }

/-- Whether a paycall response is the 200 success. -/
def PaycallResponse.isOk : PaycallResponse → Bool
  | .ok _ => true
  | _ => false

/-- Transition a quote row may undergo during settlement-time validation:
unchanged, or moved to `expired` because its expiry has passed — regardless
of its current status. -/
def expiryStep (nowMs : ℕ) (q q' : Quote) : Prop :=
  q' = q ∨ (q.expires_at < nowMs ∧ q' = { q with status := QuoteStatus.expired })

/-- Transition a quote row may undergo during the background sweep:
unchanged, or an `active` quote past its expiry moved to `expired`. -/
def sweepStep (nowMs : ℕ) (q q' : Quote) : Prop :=
  q' = q ∨
    (q.status = QuoteStatus.active ∧ q.expires_at < nowMs ∧
      q' = { q with status := QuoteStatus.expired })

/-- Transition a quote row may undergo during one whole settlement attempt:
a validation transition, or an `active` quote consumed to `used`. -/
def settleQuoteStep (nowMs : ℕ) (q q' : Quote) : Prop :=
  expiryStep nowMs q q' ∨
    (q.status = QuoteStatus.active ∧ q' = { q with status := QuoteStatus.used })

/-- A `used` quote whose expiry has passed: fixture for the C2
counterexample. -/
def c2Quote : Quote :=
  { id := "q1", endpoint := "summarize", units := {}, price_sats := 50,
    expires_at := 5, nonce := "n1", receiver_pubkey := "rk", asp_url := "aspu",
    status := QuoteStatus.used, created_at := 0 }

/-- A store holding just `c2Quote`. -/
def c2Db : DBState :=
  { quotes := [c2Quote], payments := [], jobs := [], idempotency_keys := [] }

/-- A cached response: fixture for the C4 witness. -/
def c4Resp : SuccessResponse :=
  { result := none,
    receipt := { settlement_ref := none, paid_sats := 0, job_id := "j0",
                 payment_id := "p0" } }

/-- An unexpired idempotency entry holding `c4Resp` under key `k1`. -/
def c4Entry : IdemEntry :=
  { key := "k1", response := c4Resp, expires_at := 100 }

/-- A store holding just `c4Entry`. -/
def c4Db : DBState :=
  { quotes := [], payments := [], jobs := [], idempotency_keys := [c4Entry] }

/-- An active, unexpired `translate` quote: fixture for concrete settlement
runs. -/
def liveQuote : Quote :=
  { id := "q1", endpoint := "translate", units := {}, price_sats := 15,
    expires_at := 30000, nonce := "n1", receiver_pubkey := "rk", asp_url := "aspu",
    status := QuoteStatus.active, created_at := 0 }

/-- A store holding just `liveQuote`. -/
def liveDb : DBState :=
  { quotes := [liveQuote], payments := [], jobs := [], idempotency_keys := [] }

/-- A verifier accepting every claim while reporting neither an actual
settled amount nor a settlement reference. -/
def c9Verifier : VerifyRequest → VerificationResult :=
  fun _ => { ok := true }

/-- A well-formed paycall body settling `liveQuote` against `translate`. -/
def liveBody : PayCallBody :=
  { quote_id := "q1", vtxo_spend := "dGVzdHZveG9zcGVuZA==",
    proof := "dGVzdHByb29mZGF0YQ==", sender_pubkey := "ark1qtest",
    request_endpoint := "translate", request_args := [("text", .str "hi")] }

/-- `liveBody` with its required `text` argument missing, so the translate
worker throws and the job fails. -/
def failBody : PayCallBody :=
  { liveBody with request_args := [] }

/-- A queued `compute` job whose args carry an operation but no `value`. -/
def computeJob (op : String) : Job :=
  { id := "j1", payment_id := "p1", endpoint := "compute",
    args := [("operation", .str op)], status := .queued, result := none,
    error_message := none, completed_at := none }

/-- A store holding just `computeJob op`. -/
def computeDb (op : String) : DBState :=
  { quotes := [], payments := [], jobs := [computeJob op],
    idempotency_keys := [] }

/-- What the compute worker returns for `operation` run against a missing
`value` at clock 0: `input` is `undefined` and `output` is NaN. -/
def nanOutput (op : String) : JSVal :=
  .obj [("operation", .str op), ("input", .undefined), ("output", .nan),
        ("computed_at", .str "0")]

/-- A queued `summarize` job with no `text` argument. -/
def summarizeJobNoText : Job :=
  { id := "j1", payment_id := "p1", endpoint := "summarize", args := [],
    status := .queued, result := none, error_message := none,
    completed_at := none }

/-- A store holding just `summarizeJobNoText`. -/
def summarizeDbNoText : DBState :=
  { quotes := [], payments := [], jobs := [summarizeJobNoText],
    idempotency_keys := [] }

theorem ratFloor_eq_floor (q : ℚ) : Rat.floor q = ⌊q⌋ :=
  (Rat.floor_def' q).trans Rat.floor_def.symm

theorem ratCeil_eq_ceil (q : ℚ) : ratCeil q = ⌈q⌉ := by
  rw [ratCeil, ratFloor_eq_floor, Int.floor_neg, neg_neg]

theorem ratCeil_eq_of (q : ℚ) (z : ℤ) (h1 : (z : ℚ) - 1 < q) (h2 : q ≤ z) :
    ratCeil q = z := by
  rw [ratCeil_eq_ceil]
  exact Int.ceil_eq_iff.mpr ⟨h1, h2⟩

theorem ratCeil_le_ratCeil {a b : ℚ} (h : a ≤ b) : ratCeil a ≤ ratCeil b := by
  rw [ratCeil_eq_ceil, ratCeil_eq_ceil]
  exact Int.ceil_mono h

theorem le_ratCeil (q : ℚ) : q ≤ ((ratCeil q : ℤ) : ℚ) := by
  rw [ratCeil_eq_ceil]
  exact Int.le_ceil q

theorem jsOrQ_pos {v : ℚ} (d : ℚ) (h : 0 < v) : jsOrQ (some v) d = v := by
  simp [jsOrQ, ne_of_gt h]

theorem pricingFor_summarize (u : Units) :
    pricingFor "summarize" u = summarizeRule u := by
  simp [pricingFor]

theorem pricingFor_generateImage (u : Units) :
    pricingFor "generate_image" u = generateImageRule u := by
  simp [pricingFor]

theorem pricingFor_translate (u : Units) :
    pricingFor "translate" u = translateRule u := by
  simp [pricingFor]

theorem pricingFor_compute (u : Units) :
    pricingFor "compute" u = computeRule u := by
  simp [pricingFor]

theorem pricingFor_default (e : String) (u : Units) (h1 : e ≠ "summarize")
    (h2 : e ≠ "generate_image") (h3 : e ≠ "translate") (h4 : e ≠ "compute") :
    pricingFor e u = defaultRule u := by
  simp [pricingFor, h1, h2, h3, h4]

/-- C3: the claim fails on the code in both halves. Monotonicity: the rules
read their unit count with JavaScript `||`, so the falsy count `0` falls back
to the default — `summarize` prices `tokens = 0` at 50 sats but `tokens = 1`
at only 1 sat, although `0 ≤ 1`. Rounding: `generate_image` multiplies the
raw count by 50 with no ceiling, so `images = 51/100` yields the fractional
price `51/2`. -/
theorem c3_counterexample :
    (0 : ℚ) ≤ 1 ∧
    pricingFor "summarize" { tokens := some 0 } = 50 ∧
    pricingFor "summarize" { tokens := some 1 } = 1 ∧
    ¬ pricingFor "summarize" { tokens := some 0 } ≤
        pricingFor "summarize" { tokens := some 1 } ∧
    pricingFor "generate_image" { images := some (51 / 100) } = 51 / 2 ∧
    (∀ z : ℤ, pricingFor "generate_image" { images := some (51 / 100) } ≠ (z : ℚ)) := by
  have h0 : pricingFor "summarize" { tokens := some 0 } = 50 := by
    have harg : jsOrQ (some (0 : ℚ)) 1000 / 100 * 5 = (50 : ℚ) := by
      norm_num [jsOrQ]
    rw [pricingFor_summarize, summarizeRule]
    simp only [harg]
    rw [ratCeil_eq_of 50 50 (by norm_num) (by norm_num)]
    norm_num
  have h1 : pricingFor "summarize" { tokens := some 1 } = 1 := by
    have harg : jsOrQ (some (1 : ℚ)) 1000 / 100 * 5 = (1 / 20 : ℚ) := by
      norm_num [jsOrQ]
    rw [pricingFor_summarize, summarizeRule]
    simp only [harg]
    rw [ratCeil_eq_of (1 / 20) 1 (by norm_num) (by norm_num)]
    norm_num
  have h2 : pricingFor "generate_image" { images := some ((51 : ℚ) / 100) } = 51 / 2 := by
    rw [pricingFor_generateImage, generateImageRule]
    norm_num [jsOrQ]
  refine ⟨by norm_num, h0, h1, ?_, h2, ?_⟩
  · rw [h0, h1]
    norm_num
  · intro z hz
    rw [h2] at hz
    have h51 : (51 : ℚ) = 2 * z := by linarith
    have : (51 : ℤ) = 2 * z := by exact_mod_cast h51
    omega

/-- C3 amended: each pricing rule is monotone in its relevant unit count once
both counts are positive (the failure is confined to the falsy count 0), no
rule ever charges less than its exact rate-times-count amount, and the two
rules that divide (`summarize`, `translate`) charge exactly the ceiling of
that amount; the multiplicative rules charge it exactly. -/
theorem c3_amended :
    (∀ u : Units, ∀ v₁ v₂ : ℚ, 0 < v₁ → v₁ ≤ v₂ →
      pricingFor "summarize" { u with tokens := some v₁ } ≤
        pricingFor "summarize" { u with tokens := some v₂ }) ∧
    (∀ u : Units, ∀ v₁ v₂ : ℚ, 0 < v₁ → v₁ ≤ v₂ →
      pricingFor "generate_image" { u with images := some v₁ } ≤
        pricingFor "generate_image" { u with images := some v₂ }) ∧
    (∀ u : Units, ∀ v₁ v₂ : ℚ, 0 < v₁ → v₁ ≤ v₂ →
      pricingFor "translate" { u with characters := some v₁ } ≤
        pricingFor "translate" { u with characters := some v₂ }) ∧
    (∀ u : Units, ∀ v₁ v₂ : ℚ, 0 < v₁ → v₁ ≤ v₂ →
      pricingFor "compute" { u with seconds := some v₁ } ≤
        pricingFor "compute" { u with seconds := some v₂ }) ∧
    (∀ e : String, e ≠ "summarize" → e ≠ "generate_image" → e ≠ "translate" →
      e ≠ "compute" → ∀ u : Units, ∀ v₁ v₂ : ℚ, 0 < v₁ → v₁ ≤ v₂ →
      pricingFor e { u with amount := some v₁ } ≤
        pricingFor e { u with amount := some v₂ }) ∧
    (∀ e : String, ∀ u : Units, specExactCharge e u ≤ pricingFor e u) ∧
    (∀ u : Units,
      pricingFor "summarize" u = ((⌈specExactCharge "summarize" u⌉ : ℤ) : ℚ)) ∧
    (∀ u : Units,
      pricingFor "translate" u = ((⌈specExactCharge "translate" u⌉ : ℤ) : ℚ)) ∧
    (∀ u : Units,
      pricingFor "generate_image" u = specExactCharge "generate_image" u) ∧
    (∀ u : Units,
      pricingFor "compute" u = specExactCharge "compute" u) ∧
    (∀ e : String, e ≠ "summarize" → e ≠ "generate_image" → e ≠ "translate" →
      e ≠ "compute" → ∀ u : Units, pricingFor e u = specExactCharge e u) := by
  have hmono : ∀ v₁ v₂ r : ℚ, v₁ ≤ v₂ → 0 ≤ r →
      ((ratCeil (v₁ / 100 * r) : ℤ) : ℚ) ≤ ((ratCeil (v₂ / 100 * r) : ℤ) : ℚ) := by
    intro v₁ v₂ r h12 hr
    have h : v₁ / 100 * r ≤ v₂ / 100 * r := by
      apply mul_le_mul_of_nonneg_right _ hr
      apply div_le_div_of_nonneg_right h12
      norm_num
    exact_mod_cast ratCeil_le_ratCeil h
  refine ⟨?_, ?_, ?_, ?_, ?_, ?_, ?_, ?_, ?_, ?_, ?_⟩
  · intro u v₁ v₂ h1 h12
    rw [pricingFor_summarize, pricingFor_summarize, summarizeRule, summarizeRule]
    simp only [jsOrQ_pos _ h1, jsOrQ_pos _ (lt_of_lt_of_le h1 h12)]
    exact hmono v₁ v₂ 5 h12 (by norm_num)
  · intro u v₁ v₂ h1 h12
    rw [pricingFor_generateImage, pricingFor_generateImage,
      generateImageRule, generateImageRule]
    simp only [jsOrQ_pos _ h1, jsOrQ_pos _ (lt_of_lt_of_le h1 h12)]
    exact mul_le_mul_of_nonneg_right h12 (by norm_num)
  · intro u v₁ v₂ h1 h12
    rw [pricingFor_translate, pricingFor_translate, translateRule, translateRule]
    simp only [jsOrQ_pos _ h1, jsOrQ_pos _ (lt_of_lt_of_le h1 h12)]
    exact hmono v₁ v₂ 3 h12 (by norm_num)
  · intro u v₁ v₂ h1 h12
    rw [pricingFor_compute, pricingFor_compute, computeRule, computeRule]
    simp only [jsOrQ_pos _ h1, jsOrQ_pos _ (lt_of_lt_of_le h1 h12)]
    exact mul_le_mul_of_nonneg_right h12 (by norm_num)
  · intro e he1 he2 he3 he4 u v₁ v₂ h1 h12
    rw [pricingFor_default e _ he1 he2 he3 he4, pricingFor_default e _ he1 he2 he3 he4,
      defaultRule, defaultRule]
    simp only [jsOrQ_pos _ h1, jsOrQ_pos _ (lt_of_lt_of_le h1 h12)]
    exact mul_le_mul_of_nonneg_right h12 (by norm_num)
  · intro e u
    rcases eq_or_ne e "summarize" with rfl | h1
    · rw [pricingFor_summarize, summarizeRule]
      simp only [specExactCharge, if_pos rfl]
      exact le_ratCeil _
    rcases eq_or_ne e "generate_image" with rfl | h2
    · rw [pricingFor_generateImage, generateImageRule]
      simp [specExactCharge]
    rcases eq_or_ne e "translate" with rfl | h3
    · rw [pricingFor_translate, translateRule]
      simp only [specExactCharge]
      simp only [show ¬ (("translate" : String) = "summarize") from by decide, if_neg,
        show ¬ (("translate" : String) = "generate_image") from by decide, if_false]
      simp
      exact le_ratCeil _
    rcases eq_or_ne e "compute" with rfl | h4
    · rw [pricingFor_compute, computeRule]
      simp [specExactCharge]
    · rw [pricingFor_default e _ h1 h2 h3 h4, defaultRule]
      simp [specExactCharge, h1, h2, h3, h4]
  · intro u
    rw [pricingFor_summarize, summarizeRule, ratCeil_eq_ceil]
    simp [specExactCharge]
  · intro u
    rw [pricingFor_translate, translateRule, ratCeil_eq_ceil]
    simp [specExactCharge]
  · intro u
    rw [pricingFor_generateImage, generateImageRule]
    simp [specExactCharge]
  · intro u
    rw [pricingFor_compute, computeRule]
    simp [specExactCharge]
  · intro e h1 h2 h3 h4 u
    rw [pricingFor_default e _ h1 h2 h3 h4, defaultRule]
    simp [specExactCharge, h1, h2, h3, h4]

/-- C3 amended, at a concrete input: `summarize` priced at `tokens = 1` is no
more than at `tokens = 2`. -/
theorem c3_amended_witness :
    pricingFor "summarize" { ({} : Units) with tokens := some 1 } ≤
      pricingFor "summarize" { ({} : Units) with tokens := some 2 } :=
  c3_amended.1 {} 1 2 (by norm_num) (by norm_num)

theorem forall2_map_of_mem {α : Type} (R : α → α → Prop) (f : α → α) :
    ∀ l : List α, (∀ a ∈ l, R a (f a)) → List.Forall₂ R l (l.map f) := by
  intro l
  induction l with
  | nil => intro _; exact List.Forall₂.nil
  | cons a t ih =>
    intro h
    exact List.Forall₂.cons (h a (by simp)) (ih fun x hx => h x (by simp [hx]))

theorem forall2_refl_of_mem {α : Type} (R : α → α → Prop) :
    ∀ l : List α, (∀ a ∈ l, R a a) → List.Forall₂ R l l := by
  intro l h
  have := forall2_map_of_mem R id l (by simpa using h)
  simpa using this

theorem getQuote_eq_some {db : DBState} {qid : String} {q : Quote}
    (h : db.getQuote qid = some q) : q ∈ db.quotes ∧ q.id = qid := by
  refine ⟨List.mem_of_find?_eq_some h, ?_⟩
  have := List.find?_some h
  simpa using this

theorem quote_id_inj {db : DBState} (hnd : (db.quotes.map Quote.id).Nodup)
    {q r : Quote} (hq : q ∈ db.quotes) (hr : r ∈ db.quotes) (h : q.id = r.id) :
    q = r :=
  List.inj_on_of_nodup_map hnd hq hr h

theorem createPayment_quotes (db : DBState) (p : Payment) :
    (db.createPayment p).quotes = db.quotes := rfl

theorem createPayment_jobs (db : DBState) (p : Payment) :
    (db.createPayment p).jobs = db.jobs := rfl

theorem createPayment_idem (db : DBState) (p : Payment) :
    (db.createPayment p).idempotency_keys = db.idempotency_keys := rfl

theorem createJob_quotes (db : DBState) (j : Job) :
    (db.createJob j).quotes = db.quotes := rfl

theorem createJob_payments (db : DBState) (j : Job) :
    (db.createJob j).payments = db.payments := rfl

theorem createJob_idem (db : DBState) (j : Job) :
    (db.createJob j).idempotency_keys = db.idempotency_keys := rfl

theorem updateJob_quotes (db : DBState) (id : String) (u : JobUpdate) :
    (db.updateJob id u).quotes = db.quotes := rfl

theorem updateJob_payments (db : DBState) (id : String) (u : JobUpdate) :
    (db.updateJob id u).payments = db.payments := rfl

theorem updateJob_idem (db : DBState) (id : String) (u : JobUpdate) :
    (db.updateJob id u).idempotency_keys = db.idempotency_keys := rfl

theorem updateQuoteStatus_payments (db : DBState) (id : String) (s : QuoteStatus) :
    (db.updateQuoteStatus id s).payments = db.payments := rfl

theorem updateQuoteStatus_jobs (db : DBState) (id : String) (s : QuoteStatus) :
    (db.updateQuoteStatus id s).jobs = db.jobs := rfl

theorem updateQuoteStatus_idem (db : DBState) (id : String) (s : QuoteStatus) :
    (db.updateQuoteStatus id s).idempotency_keys = db.idempotency_keys := rfl

theorem setIdem_quotes (db : DBState) (n : ℕ) (k : String) (r : SuccessResponse)
    (t : ℕ) : (db.setIdempotencyKey n k r t).quotes = db.quotes := rfl

theorem setIdem_payments (db : DBState) (n : ℕ) (k : String) (r : SuccessResponse)
    (t : ℕ) : (db.setIdempotencyKey n k r t).payments = db.payments := rfl

theorem setIdem_jobs (db : DBState) (n : ℕ) (k : String) (r : SuccessResponse)
    (t : ℕ) : (db.setIdempotencyKey n k r t).jobs = db.jobs := rfl

theorem executeJob_db {db db' : DBState} {nowMs : ℕ} {jobId : String}
    {r : JobResult} (h : executeJob db nowMs jobId = .ok (r, db')) :
    db'.quotes = db.quotes ∧ db'.payments = db.payments ∧
      db'.idempotency_keys = db.idempotency_keys := by
  unfold executeJob at h
  split at h
  · cases h
  · split at h
    · simp only [Except.ok.injEq, Prod.mk.injEq] at h
      obtain ⟨-, hdb⟩ := h
      subst hdb
      exact ⟨rfl, rfl, rfl⟩
    · simp only [Except.ok.injEq, Prod.mk.injEq] at h
      obtain ⟨-, hdb⟩ := h
      subst hdb
      exact ⟨rfl, rfl, rfl⟩

theorem getValidQuote_some {db db' : DBState} {nowMs : ℕ} {qid : String}
    {q : Quote} (h : getValidQuote db nowMs qid = (some q, db')) :
    db' = db ∧ db.getQuote qid = some q ∧ q.status = QuoteStatus.active ∧
      ¬ q.expires_at < nowMs := by
  unfold getValidQuote at h
  cases hq : db.getQuote qid with
  | none => rw [hq] at h; cases h
  | some quote =>
    rw [hq] at h
    by_cases he : quote.expires_at < nowMs
    · simp [he] at h
    · by_cases hs : quote.status ≠ QuoteStatus.active
      · simp [he, hs] at h
      · push_neg at hs
        simp only [if_neg he, hs, ne_eq, not_true_eq_false, if_false,
          Prod.mk.injEq, Option.some.injEq] at h
        obtain ⟨h1, h2⟩ := h
        subst h1
        subst h2
        exact ⟨rfl, rfl, hs, he⟩

theorem getValidQuote_db {db : DBState} {nowMs : ℕ} {qid : String} :
    (getValidQuote db nowMs qid).2 = db ∨
      (∃ q : Quote, db.getQuote qid = some q ∧ q.expires_at < nowMs ∧
        (getValidQuote db nowMs qid).2 = db.updateQuoteStatus qid .expired) := by
  unfold getValidQuote
  cases hq : db.getQuote qid with
  | none => exact Or.inl rfl
  | some quote =>
    by_cases he : quote.expires_at < nowMs
    · exact Or.inr ⟨quote, rfl, he, by simp [he]⟩
    · by_cases hs : quote.status ≠ QuoteStatus.active
      · simp [he, hs]
      · simp [he, hs]

theorem getValidQuote_quotes_step {db : DBState} {nowMs : ℕ} {qid : String}
    (hnd : (db.quotes.map Quote.id).Nodup) :
    List.Forall₂ (expiryStep nowMs) db.quotes ((getValidQuote db nowMs qid).2).quotes := by
  rcases @getValidQuote_db db nowMs qid with h | ⟨q, hq, he, h⟩
  · rw [h]
    exact forall2_refl_of_mem _ _ fun a _ => Or.inl rfl
  · rw [h]
    obtain ⟨hmem, hid⟩ := getQuote_eq_some hq
    apply forall2_map_of_mem
    intro a ha
    by_cases hii : a.id = qid
    · have : a = q := quote_id_inj hnd ha hmem (by rw [hii, hid])
      subst this
      exact Or.inr ⟨he, by simp [hii]⟩
    · exact Or.inl (by simp [hii])

/-- C2: the claim fails on the code. `getValidQuote` checks the expiry
before it checks the status, so validating a `used` quote whose expiry has
passed rewrites its status to `expired` — an operation changing the status
of an already-`used` quote (`used → expired`). -/
theorem c2_counterexample :
    c2Quote.status = QuoteStatus.used ∧
    (getValidQuote c2Db 10 "q1").1 = none ∧
    (getValidQuote c2Db 10 "q1").2.quotes =
      [{ c2Quote with status := QuoteStatus.expired }] :=
  ⟨rfl, rfl, rfl⟩

theorem settleStep1_verifying {nowMs : ℕ} {key : String} {body : Option PayCallBody}
    {db db1 : DBState} {quote : Quote} {b : PayCallBody}
    (h : settleStep1 nowMs key body db = (.verifying quote b, db1)) :
    body = some b ∧ db1 = db ∧ db.getQuote b.quote_id = some quote ∧
      quote.status = QuoteStatus.active ∧ ¬ quote.expires_at < nowMs ∧
      quote.endpoint = b.request_endpoint := by
  unfold settleStep1 at h
  rcases hc : (if key ≠ "" then db.getIdempotencyKey nowMs key else none) with - | entry
  · rw [hc] at h
    cases body with
    | none => simp at h
    | some b0 =>
      rcases hv : getValidQuote db nowMs b0.quote_id with ⟨oq, db1'⟩
      cases oq with
      | none => simp [hv] at h
      | some quote0 =>
        by_cases hend : quote0.endpoint ≠ b0.request_endpoint
        · simp [hv, hend] at h
        · push_neg at hend
          simp only [hv, hend, ne_eq, not_true_eq_false, if_false, Prod.mk.injEq,
            SettlePhase.verifying.injEq] at h
          obtain ⟨⟨hq, hb⟩, hdb⟩ := h
          subst hq
          subst hb
          subst hdb
          obtain ⟨hd, hg, hs, he⟩ := getValidQuote_some hv
          exact ⟨rfl, hd, hg, hs, he, hend⟩
  · rw [hc] at h
    simp at h

theorem settleStep1_db {nowMs : ℕ} {key : String} {body : Option PayCallBody}
    {db : DBState} :
    (settleStep1 nowMs key body db).2 = db ∨
    (∃ b : PayCallBody, body = some b ∧
      (settleStep1 nowMs key body db).2 = (getValidQuote db nowMs b.quote_id).2) := by
  rcases hc : (if key ≠ "" then db.getIdempotencyKey nowMs key else none) with - | entry
  · cases body with
    | none =>
      refine Or.inl ?_
      unfold settleStep1
      rw [hc]
    | some b0 =>
      refine Or.inr ⟨b0, rfl, ?_⟩
      unfold settleStep1
      rw [hc]
      rcases hv : getValidQuote db nowMs b0.quote_id with ⟨oq, db1'⟩
      cases oq with
      | none => simp [hv]
      | some quote0 =>
        by_cases hend : quote0.endpoint ≠ b0.request_endpoint
        · simp [hv, hend]
        · push_neg at hend
          simp [hv, hend]
  · refine Or.inl ?_
    unfold settleStep1
    rw [hc]

theorem settleStep2_quotes (verify : VerifyRequest → VerificationResult)
    (nowMs : ℕ) (pid jid key : String) (quote : Quote) (b : PayCallBody)
    (db : DBState) :
    (settleStep2 verify nowMs pid jid key quote b db).2.quotes = db.quotes ∨
    (settleStep2 verify nowMs pid jid key quote b db).2.quotes =
      (db.updateQuoteStatus b.quote_id QuoteStatus.used).quotes := by
  unfold settleStep2
  by_cases hv : (verify (verifyReqOf quote b)).ok
  · simp only [hv, Bool.not_true, Bool.false_eq_true, if_false]
    have hrec : (recordedDb (verify (verifyReqOf quote b)) pid jid quote b db).quotes =
        (db.updateQuoteStatus b.quote_id QuoteStatus.used).quotes := rfl
    cases he : executeJob (recordedDb (verify (verifyReqOf quote b)) pid jid quote b db)
        nowMs jid with
    | error msg =>
      simp only [he]
      exact Or.inr hrec
    | ok p =>
      obtain ⟨res, db5⟩ := p
      simp only [he]
      have hq5 := (executeJob_db he).1
      by_cases hr : res.status = JRStatus.error
      · rw [if_pos hr]
        exact Or.inr (hq5.trans hrec)
      · rw [if_neg hr]
        by_cases hk : key ≠ ""
        · rw [if_pos hk]
          exact Or.inr ((setIdem_quotes _ _ _ _ _).trans (hq5.trans hrec))
        · rw [if_neg hk]
          exact Or.inr (hq5.trans hrec)
  · simp only [hv, Bool.not_false, if_pos]
    exact Or.inl trivial

/-- C2 amended: quote statuses never revert — every operation's transitions
are: validation (`getValidQuote`) leaves a row unchanged or moves it (from
any status, `used` included) to `expired` once its expiry has passed; the
sweep (`cleanupExpired`) only moves time-expired `active` rows to `expired`
and touches neither payments nor jobs; a whole settlement attempt (`paycall`)
additionally consumes an `active` row to `used`; and no admitted transition
ever makes a row `active` that was not already. Quote ids are assumed unique,
as the primary key guarantees. -/
theorem c2_amended :
    (∀ (db : DBState) (nowMs : ℕ) (qid : String),
      (db.quotes.map Quote.id).Nodup →
      List.Forall₂ (expiryStep nowMs) db.quotes
        ((getValidQuote db nowMs qid).2).quotes) ∧
    (∀ (db : DBState) (nowMs : ℕ),
      List.Forall₂ (sweepStep nowMs) db.quotes (db.cleanupExpired nowMs).quotes ∧
      (db.cleanupExpired nowMs).payments = db.payments ∧
      (db.cleanupExpired nowMs).jobs = db.jobs) ∧
    (∀ (verify : VerifyRequest → VerificationResult) (nowMs : ℕ)
      (pid jid key : String) (body : Option PayCallBody) (db : DBState),
      (db.quotes.map Quote.id).Nodup →
      List.Forall₂ (settleQuoteStep nowMs) db.quotes
        ((paycall verify nowMs pid jid key body db).db).quotes) ∧
    (∀ (nowMs : ℕ) (q q' : Quote), settleQuoteStep nowMs q q' →
      q'.status = QuoteStatus.active → q' = q) := by
  refine ⟨?_, ?_, ?_, ?_⟩
  · intro db nowMs qid hnd
    exact getValidQuote_quotes_step hnd
  · intro db nowMs
    refine ⟨?_, rfl, rfl⟩
    apply forall2_map_of_mem
    intro a _
    by_cases hcond : a.status = QuoteStatus.active ∧ a.expires_at < nowMs
    · simp only [hcond, if_pos]
      exact Or.inr ⟨hcond.1, hcond.2, rfl⟩
    · simp only [hcond, if_neg]
      exact Or.inl rfl
  · intro verify nowMs pid jid key body db hnd
    unfold paycall
    rcases h1 : settleStep1 nowMs key body db with ⟨ph, db1⟩
    cases ph with
    | done r =>
      have hdb1 : List.Forall₂ (expiryStep nowMs) db.quotes db1.quotes := by
        rcases @settleStep1_db nowMs key body db with hd | ⟨b0, -, hd⟩
        · rw [h1] at hd
          have hdd : db1 = db := hd
          rw [hdd]
          exact forall2_refl_of_mem _ _ fun a _ => Or.inl rfl
        · rw [h1] at hd
          have hdd : db1 = (getValidQuote db nowMs b0.quote_id).2 := hd
          rw [hdd]
          exact getValidQuote_quotes_step hnd
      exact hdb1.imp fun a b hab => Or.inl hab
    | verifying quote b =>
      obtain ⟨hbody, hdb1, hg, hs, -, -⟩ := settleStep1_verifying h1
      obtain ⟨hmem, hid⟩ := getQuote_eq_some hg
      show List.Forall₂ (settleQuoteStep nowMs) db.quotes
        ((settleStep2 verify nowMs pid jid key quote b db1).2).quotes
      rw [hdb1]
      rcases settleStep2_quotes verify nowMs pid jid key quote b db with hq | hq
      · rw [hq]
        exact forall2_refl_of_mem _ _ fun a _ => Or.inl (Or.inl rfl)
      · rw [hq]
        apply forall2_map_of_mem
        intro a ha
        by_cases hii : a.id = b.quote_id
        · have : a = quote := quote_id_inj hnd ha hmem (by rw [hii, hid])
          subst this
          exact Or.inr ⟨hs, by simp [hii]⟩
        · exact Or.inl (Or.inl (by simp [hii]))
  · intro nowMs q q' hstep hact
    rcases hstep with (h | ⟨-, h⟩) | ⟨-, h⟩
    · exact h
    · subst h
      simp at hact
    · subst h
      simp at hact

theorem idemIf_none {nowMs : ℕ} {key : String} {db : DBState}
    (hnc : key = "" ∨ db.getIdempotencyKey nowMs key = none) :
    (if key ≠ "" then db.getIdempotencyKey nowMs key else none) = none := by
  rcases hnc with h | h
  · rw [if_neg]
    intro hk
    exact hk h
  · by_cases hk : key ≠ ""
    · rw [if_pos hk]
      exact h
    · rw [if_neg hk]

theorem paycall_verifying (verify : VerifyRequest → VerificationResult)
    {nowMs : ℕ} {pid jid key : String} {body : Option PayCallBody}
    {db : DBState} {quote : Quote} {b : PayCallBody}
    (h1 : settleStep1 nowMs key body db = (.verifying quote b, db)) :
    paycall verify nowMs pid jid key body db =
      { response := (settleStep2 verify nowMs pid jid key quote b db).1,
        db := (settleStep2 verify nowMs pid jid key quote b db).2,
        verifierCalled := true } := by
  unfold paycall
  rw [h1]

theorem settleStep1_eq_verifying {nowMs : ℕ} {key : String} {b : PayCallBody}
    {db : DBState} {quote : Quote}
    (hnc : key = "" ∨ db.getIdempotencyKey nowMs key = none)
    (hq : getValidQuote db nowMs b.quote_id = (some quote, db))
    (hend : quote.endpoint = b.request_endpoint) :
    settleStep1 nowMs key (some b) db = (.verifying quote b, db) := by
  unfold settleStep1
  rw [idemIf_none hnc]
  simp only [hq, hend, ne_eq, not_true_eq_false, if_false]

/-- C4: a paycall invocation whose `Idempotency-Key` hits a live cache entry
returns exactly the stored response, changes no state (the store is returned
untouched), and never calls the verifier — for every request body, parseable
or not, so the lookup precedes all other validation. -/
theorem c4_idempotency_hit (verify : VerifyRequest → VerificationResult)
    (nowMs : ℕ) (pid jid key : String) (body : Option PayCallBody)
    (db : DBState) (entry : IdemEntry) (hkey : key ≠ "")
    (hcache : db.getIdempotencyKey nowMs key = some entry) :
    paycall verify nowMs pid jid key body db =
      { response := .cached entry.response, db := db, verifierCalled := false } := by
  unfold paycall settleStep1
  rw [if_pos hkey, hcache]

/-- C4 at a concrete input: key `k1` held in the cache, an unparseable body,
a rejecting verifier — the cached response comes back, untouched store, no
verifier call. -/
theorem c4_witness :
    paycall (fun _ => { ok := false }) 0 "p1" "j1" "k1" none c4Db =
      { response := .cached c4Resp, db := c4Db, verifierCalled := false } :=
  c4_idempotency_hit (fun _ => { ok := false }) 0 "p1" "j1" "k1" none c4Db
    c4Entry (by decide) rfl

theorem settleStep2_rejected {verify : VerifyRequest → VerificationResult}
    {nowMs : ℕ} {pid jid key : String} {quote : Quote} {b : PayCallBody}
    {db : DBState} (hrej : (verify (verifyReqOf quote b)).ok = false) :
    settleStep2 verify nowMs pid jid key quote b db =
      (.paymentInvalid (verify (verifyReqOf quote b)).reason, db) := by
  unfold settleStep2
  simp only [hrej, Bool.not_false, if_true]

/-- C5: when the verifier rejects the claim, the invocation returns
`payment_invalid` (402) carrying the verifier's reason, the store is
returned exactly as it was — no payment, job or idempotency row — and the
quote (validated `active` on this same path) keeps that status. -/
theorem c5_payment_rejected (verify : VerifyRequest → VerificationResult)
    (nowMs : ℕ) (pid jid key : String) (b : PayCallBody) (db : DBState)
    (quote : Quote)
    (hnc : key = "" ∨ db.getIdempotencyKey nowMs key = none)
    (hq : getValidQuote db nowMs b.quote_id = (some quote, db))
    (hend : quote.endpoint = b.request_endpoint)
    (hrej : (verify (verifyReqOf quote b)).ok = false) :
    paycall verify nowMs pid jid key (some b) db =
      { response := .paymentInvalid (verify (verifyReqOf quote b)).reason,
        db := db, verifierCalled := true } ∧
    quote.status = QuoteStatus.active := by
  refine ⟨?_, (getValidQuote_some hq).2.2.1⟩
  rw [paycall_verifying verify (settleStep1_eq_verifying hnc hq hend),
    settleStep2_rejected hrej]

/-- C5 at a concrete input: an active `translate` quote, a matching body, a
verifier rejecting with `invalid_payment_format` — 402 with that reason and
the store unchanged, quote still active. -/
theorem c5_witness :
    paycall (fun _ => { ok := false, reason := some "invalid_payment_format" })
        0 "p1" "j1" "" (some liveBody) liveDb =
      { response := .paymentInvalid (some "invalid_payment_format"),
        db := liveDb, verifierCalled := true } ∧
    liveQuote.status = QuoteStatus.active :=
  c5_payment_rejected
    (fun _ => { ok := false, reason := some "invalid_payment_format" })
    0 "p1" "j1" "" liveBody liveDb liveQuote (Or.inl rfl) rfl rfl rfl

/-- C8: when the request's endpoint differs from the quote's stored endpoint
the invocation returns `endpoint_mismatch` (400), the store is untouched,
and the verifier is never invoked in that invocation. -/
theorem c8_endpoint_mismatch (verify : VerifyRequest → VerificationResult)
    (nowMs : ℕ) (pid jid key : String) (b : PayCallBody) (db : DBState)
    (quote : Quote)
    (hnc : key = "" ∨ db.getIdempotencyKey nowMs key = none)
    (hq : getValidQuote db nowMs b.quote_id = (some quote, db))
    (hend : quote.endpoint ≠ b.request_endpoint) :
    paycall verify nowMs pid jid key (some b) db =
      { response := .endpointMismatch, db := db, verifierCalled := false } := by
  unfold paycall settleStep1
  rw [idemIf_none hnc]
  simp only [hq, hend, ne_eq, not_false_eq_true, if_true]

/-- C8 at a concrete input: a `translate` quote settled with a body naming
`summarize` — 400 endpoint mismatch, verifier not called. -/
theorem c8_witness :
    paycall (fun _ => { ok := true }) 0 "p1" "j1" ""
        (some { liveBody with request_endpoint := "summarize" }) liveDb =
      { response := .endpointMismatch, db := liveDb, verifierCalled := false } :=
  c8_endpoint_mismatch (fun _ => { ok := true }) 0 "p1" "j1" ""
    { liveBody with request_endpoint := "summarize" } liveDb liveQuote
    (Or.inl rfl) rfl (by decide)

theorem settleStep2_payments_ok {verify : VerifyRequest → VerificationResult}
    {nowMs : ℕ} {pid jid key : String} {quote : Quote} {b : PayCallBody}
    {db : DBState} (hok : (verify (verifyReqOf quote b)).ok = true) :
    (settleStep2 verify nowMs pid jid key quote b db).2.payments =
      db.payments ++ [paymentRow (verify (verifyReqOf quote b)) quote b pid] := by
  unfold settleStep2
  simp only [hok, Bool.not_true, Bool.false_eq_true, if_false]
  cases he : executeJob (recordedDb (verify (verifyReqOf quote b)) pid jid quote b db)
      nowMs jid with
  | error msg =>
    simp only [he]
    rfl
  | ok p =>
    obtain ⟨res, db5⟩ := p
    simp only [he]
    have hp := (executeJob_db he).2.1
    by_cases hr : res.status = JRStatus.error
    · rw [if_pos hr]
      exact hp
    · rw [if_neg hr]
      by_cases hk : key ≠ ""
      · rw [if_pos hk]
        exact (setIdem_payments _ _ _ _ _).trans hp
      · rw [if_neg hk]
        exact hp

theorem settleStep2_ok_response {verify : VerifyRequest → VerificationResult}
    {nowMs : ℕ} {pid jid key : String} {quote : Quote} {b : PayCallBody}
    {db : DBState} {r : SuccessResponse}
    (h : (settleStep2 verify nowMs pid jid key quote b db).1 = .ok r) :
    ∃ res : JobResult,
      r = successOf (verify (verifyReqOf quote b)) quote res jid pid := by
  cases hb : (verify (verifyReqOf quote b)).ok with
  | false =>
    rw [settleStep2_rejected hb] at h
    simp at h
  | true =>
    unfold settleStep2 at h
    simp only [hb, Bool.not_true, Bool.false_eq_true, if_false] at h
    cases he : executeJob (recordedDb (verify (verifyReqOf quote b)) pid jid quote b db)
        nowMs jid with
    | error msg =>
      rw [he] at h
      simp at h
    | ok p =>
      obtain ⟨res, db5⟩ := p
      rw [he] at h
      by_cases hr : res.status = JRStatus.error
      · simp [hr] at h
      · simp only [hr, if_false] at h
        refine ⟨res, ?_⟩
        have : PaycallResponse.ok (successOf (verify (verifyReqOf quote b)) quote res jid pid) =
            PaycallResponse.ok r := h
        exact (PaycallResponse.ok.injEq _ _ ▸ this).symm

/-- C9: when the verifier accepts but reports no (or a zero) actual settled
amount, both the persisted payment row's `paid_sats` and the success
receipt's `paid_sats` fall back to the quote's `price_sats`; and when it
omits the settlement reference, the payment row records the empty string. -/
theorem c9_paid_sats_fallback (verify : VerifyRequest → VerificationResult)
    (nowMs : ℕ) (pid jid key : String) (b : PayCallBody) (db : DBState)
    (quote : Quote)
    (hnc : key = "" ∨ db.getIdempotencyKey nowMs key = none)
    (hq : getValidQuote db nowMs b.quote_id = (some quote, db))
    (hend : quote.endpoint = b.request_endpoint)
    (hok : (verify (verifyReqOf quote b)).ok = true)
    (hsats : (verify (verifyReqOf quote b)).actualSats = none ∨
      (verify (verifyReqOf quote b)).actualSats = some 0) :
    ((paycall verify nowMs pid jid key (some b) db).db).payments =
      db.payments ++ [paymentRow (verify (verifyReqOf quote b)) quote b pid] ∧
    (paymentRow (verify (verifyReqOf quote b)) quote b pid).paid_sats =
      quote.price_sats ∧
    ((verify (verifyReqOf quote b)).settlementRef = none →
      (paymentRow (verify (verifyReqOf quote b)) quote b pid).ark_ref = "") ∧
    (∀ r : SuccessResponse,
      (paycall verify nowMs pid jid key (some b) db).response = .ok r →
        r.receipt.paid_sats = quote.price_sats) := by
  have hpv := @paycall_verifying verify nowMs pid jid key (some b) db quote b
    (settleStep1_eq_verifying hnc hq hend)
  have hfall : jsOrQ (verify (verifyReqOf quote b)).actualSats quote.price_sats =
      quote.price_sats := by
    rcases hsats with h | h
    · rw [h]
      rfl
    · rw [h]
      simp [jsOrQ]
  refine ⟨?_, ?_, ?_, ?_⟩
  · rw [hpv]
    exact settleStep2_payments_ok hok
  · exact hfall
  · intro hsr
    show jsOrStr (verify (verifyReqOf quote b)).settlementRef "" = ""
    rw [hsr]
    rfl
  · intro r hr
    rw [hpv] at hr
    obtain ⟨res, hres⟩ := settleStep2_ok_response hr
    rw [hres]
    exact hfall

/-- C9 at a concrete input: a verifier accepting with no actual amount and
no settlement reference — the recorded payment and the successful receipt
both carry the quote's 15 sats, and the settlement reference is stored
empty. -/
theorem c9_witness :
    ((paycall c9Verifier 0 "p1" "j1" "" (some liveBody) liveDb).db).payments =
      liveDb.payments ++
        [paymentRow (c9Verifier (verifyReqOf liveQuote liveBody)) liveQuote
          liveBody "p1"] ∧
    (paymentRow (c9Verifier (verifyReqOf liveQuote liveBody)) liveQuote
      liveBody "p1").paid_sats = liveQuote.price_sats ∧
    ((c9Verifier (verifyReqOf liveQuote liveBody)).settlementRef = none →
      (paymentRow (c9Verifier (verifyReqOf liveQuote liveBody)) liveQuote
        liveBody "p1").ark_ref = "") ∧
    (∀ r : SuccessResponse,
      (paycall c9Verifier 0 "p1" "j1" "" (some liveBody) liveDb).response = .ok r →
        r.receipt.paid_sats = liveQuote.price_sats) :=
  c9_paid_sats_fallback c9Verifier 0 "p1" "j1" "" liveBody liveDb liveQuote
    (Or.inl rfl) rfl rfl rfl (Or.inl rfl)

theorem settleStep2_on_error {verify : VerifyRequest → VerificationResult}
    {nowMs : ℕ} {pid jid : String} (key : String) {quote : Quote}
    {b : PayCallBody} {db : DBState} {res : JobResult} {db5 : DBState}
    (hok : (verify (verifyReqOf quote b)).ok = true)
    (he : executeJob (recordedDb (verify (verifyReqOf quote b)) pid jid quote b db)
      nowMs jid = .ok (res, db5))
    (hr : res.status = JRStatus.error) :
    settleStep2 verify nowMs pid jid key quote b db =
      (.jobExecutionFailed res.error, db5) := by
  unfold settleStep2
  simp only [hok, Bool.not_true, Bool.false_eq_true, if_false, he]
  rw [if_pos hr]

theorem settleStep2_on_ok {verify : VerifyRequest → VerificationResult}
    {nowMs : ℕ} {pid jid : String} (key : String) {quote : Quote}
    {b : PayCallBody} {db : DBState} {res : JobResult} {db5 : DBState}
    (hok : (verify (verifyReqOf quote b)).ok = true)
    (he : executeJob (recordedDb (verify (verifyReqOf quote b)) pid jid quote b db)
      nowMs jid = .ok (res, db5))
    (hr : ¬ res.status = JRStatus.error) :
    settleStep2 verify nowMs pid jid key quote b db =
      (.ok (successOf (verify (verifyReqOf quote b)) quote res jid pid),
        if key ≠ "" then
          db5.setIdempotencyKey nowMs key
            (successOf (verify (verifyReqOf quote b)) quote res jid pid) 120
        else db5) := by
  unfold settleStep2
  simp only [hok, Bool.not_true, Bool.false_eq_true, if_false, he]
  rw [if_neg hr]

theorem settleStep1_idem {nowMs : ℕ} {key : String} {body : Option PayCallBody}
    {db : DBState} :
    (settleStep1 nowMs key body db).2.idempotency_keys = db.idempotency_keys := by
  rcases @settleStep1_db nowMs key body db with h | ⟨b0, -, h⟩
  · rw [h]
  · rw [h]
    rcases @getValidQuote_db db nowMs b0.quote_id with h2 | ⟨q, -, -, h2⟩
    · rw [h2]
    · rw [h2]
      rfl

theorem settleStep2_idem (verify : VerifyRequest → VerificationResult)
    (nowMs : ℕ) (pid jid key : String) (quote : Quote) (b : PayCallBody)
    (db : DBState) :
    (settleStep2 verify nowMs pid jid key quote b db).2.idempotency_keys =
      db.idempotency_keys ∨
    (∃ r : SuccessResponse,
      (settleStep2 verify nowMs pid jid key quote b db).1 = .ok r ∧ key ≠ "" ∧
      (settleStep2 verify nowMs pid jid key quote b db).2.idempotency_keys =
        db.idempotency_keys.filter (fun e => e.key ≠ key) ++
          [{ key := key, response := r, expires_at := nowMs + 120 * 1000 }]) := by
  cases hb : (verify (verifyReqOf quote b)).ok with
  | false =>
    rw [settleStep2_rejected hb]
    exact Or.inl rfl
  | true =>
    cases he : executeJob (recordedDb (verify (verifyReqOf quote b)) pid jid quote b db)
        nowMs jid with
    | error msg =>
      unfold settleStep2
      simp only [hb, Bool.not_true, Bool.false_eq_true, if_false, he]
      exact Or.inl rfl
    | ok p =>
      obtain ⟨res, db5⟩ := p
      have h5 : db5.idempotency_keys = db.idempotency_keys := (executeJob_db he).2.2
      by_cases hr : res.status = JRStatus.error
      · rw [settleStep2_on_error key hb he hr]
        exact Or.inl h5
      · rw [settleStep2_on_ok key hb he hr]
        by_cases hk : key ≠ ""
        · rw [if_pos hk]
          refine Or.inr ⟨successOf (verify (verifyReqOf quote b)) quote res jid pid,
            rfl, hk, ?_⟩
          show db5.idempotency_keys.filter (fun e => e.key ≠ key) ++ _ = _
          rw [h5]
        · rw [if_neg hk]
          exact Or.inl h5

/-- C6: once a settlement reaches job execution, a failed job yields the 500
`job_execution_failed` response and leaves the idempotency table exactly as
it was; a successful job writes the cache entry — with the fixed two-minute
TTL (`nowMs + 120·1000`) — exactly when a key was supplied; and (for every
invocation whatsoever) the idempotency table is either untouched or holds
the one entry written on a keyed success. -/
theorem c6_idempotency_write_policy (verify : VerifyRequest → VerificationResult)
    (nowMs : ℕ) (pid jid key : String) (b : PayCallBody) (db : DBState)
    (quote : Quote)
    (hnc : key = "" ∨ db.getIdempotencyKey nowMs key = none)
    (hq : getValidQuote db nowMs b.quote_id = (some quote, db))
    (hend : quote.endpoint = b.request_endpoint)
    (hok : (verify (verifyReqOf quote b)).ok = true) :
    (∀ (res : JobResult) (db5 : DBState),
      executeJob (recordedDb (verify (verifyReqOf quote b)) pid jid quote b db)
          nowMs jid = .ok (res, db5) →
      res.status = JRStatus.error →
      (paycall verify nowMs pid jid key (some b) db).response =
        .jobExecutionFailed res.error ∧
      (paycall verify nowMs pid jid key (some b) db).db.idempotency_keys =
        db.idempotency_keys) ∧
    (∀ (res : JobResult) (db5 : DBState),
      executeJob (recordedDb (verify (verifyReqOf quote b)) pid jid quote b db)
          nowMs jid = .ok (res, db5) →
      ¬ res.status = JRStatus.error →
      (key ≠ "" →
        (paycall verify nowMs pid jid key (some b) db).db.idempotency_keys =
          db.idempotency_keys.filter (fun e => e.key ≠ key) ++
            [{ key := key,
               response := successOf (verify (verifyReqOf quote b)) quote res jid pid,
               expires_at := nowMs + 120 * 1000 }]) ∧
      (key = "" →
        (paycall verify nowMs pid jid key (some b) db).db.idempotency_keys =
          db.idempotency_keys)) ∧
    (∀ (v : VerifyRequest → VerificationResult) (n : ℕ) (p j k : String)
      (bo : Option PayCallBody) (d : DBState),
      (paycall v n p j k bo d).db.idempotency_keys = d.idempotency_keys ∨
      (∃ r : SuccessResponse, (paycall v n p j k bo d).response = .ok r ∧ k ≠ "" ∧
        (paycall v n p j k bo d).db.idempotency_keys =
          d.idempotency_keys.filter (fun e => e.key ≠ k) ++
            [{ key := k, response := r, expires_at := n + 120 * 1000 }])) := by
  have hpv := @paycall_verifying verify nowMs pid jid key (some b) db quote b
    (settleStep1_eq_verifying hnc hq hend)
  refine ⟨?_, ?_, ?_⟩
  · intro res db5 he hr
    rw [hpv, settleStep2_on_error key hok he hr]
    exact ⟨rfl, (executeJob_db he).2.2⟩
  · intro res db5 he hr
    have h5 : db5.idempotency_keys = db.idempotency_keys := (executeJob_db he).2.2
    constructor
    · intro hk
      rw [hpv, settleStep2_on_ok key hok he hr]
      show (if key ≠ "" then _ else _ : DBState).idempotency_keys = _
      rw [if_pos hk]
      show db5.idempotency_keys.filter (fun e => e.key ≠ key) ++ _ = _
      rw [h5]
    · intro hk
      rw [hpv, settleStep2_on_ok key hok he hr]
      show (if key ≠ "" then _ else _ : DBState).idempotency_keys = _
      rw [if_neg (by simp [hk])]
      exact h5
  · intro v n p j k bo d
    unfold paycall
    rcases h1 : settleStep1 n k bo d with ⟨ph, d1⟩
    have hidem1 : d1.idempotency_keys = d.idempotency_keys := by
      have := @settleStep1_idem n k bo d
      rw [h1] at this
      exact this
    cases ph with
    | done r => exact Or.inl hidem1
    | verifying quote0 b0 =>
      obtain ⟨-, hdd, -, -, -, -⟩ := settleStep1_verifying h1
      rcases settleStep2_idem v n p j k quote0 b0 d with h | ⟨r, hresp, hk, h⟩
      · refine Or.inl ?_
        show (settleStep2 v n p j k quote0 b0 d1).2.idempotency_keys = _
        rw [hdd]
        exact h
      · refine Or.inr ⟨r, ?_, hk, ?_⟩
        · show (settleStep2 v n p j k quote0 b0 d1).1 = .ok r
          rw [hdd]
          exact hresp
        · show (settleStep2 v n p j k quote0 b0 d1).2.idempotency_keys = _
          rw [hdd]
          exact h

/-- C6 at a concrete input: a `translate` settlement with the `text`
argument missing and key `k1` — the hypotheses of the policy theorem hold,
so the failed job's 500 is not cached and a cache entry could only ever be
written on a keyed success with the two-minute TTL. -/
theorem c6_witness :
    (∀ (res : JobResult) (db5 : DBState),
      executeJob (recordedDb (c9Verifier (verifyReqOf liveQuote failBody))
          "p1" "j1" liveQuote failBody liveDb) 0 "j1" = .ok (res, db5) →
      res.status = JRStatus.error →
      (paycall c9Verifier 0 "p1" "j1" "k1" (some failBody) liveDb).response =
        .jobExecutionFailed res.error ∧
      (paycall c9Verifier 0 "p1" "j1" "k1" (some failBody) liveDb).db.idempotency_keys =
        liveDb.idempotency_keys) ∧
    (∀ (res : JobResult) (db5 : DBState),
      executeJob (recordedDb (c9Verifier (verifyReqOf liveQuote failBody))
          "p1" "j1" liveQuote failBody liveDb) 0 "j1" = .ok (res, db5) →
      ¬ res.status = JRStatus.error →
      ("k1" ≠ "" →
        (paycall c9Verifier 0 "p1" "j1" "k1" (some failBody) liveDb).db.idempotency_keys =
          liveDb.idempotency_keys.filter (fun e => e.key ≠ "k1") ++
            [{ key := "k1",
               response := successOf (c9Verifier (verifyReqOf liveQuote failBody))
                 liveQuote res "j1" "p1",
               expires_at := 0 + 120 * 1000 }]) ∧
      ("k1" = "" →
        (paycall c9Verifier 0 "p1" "j1" "k1" (some failBody) liveDb).db.idempotency_keys =
          liveDb.idempotency_keys)) ∧
    (∀ (v : VerifyRequest → VerificationResult) (n : ℕ) (p j k : String)
      (bo : Option PayCallBody) (d : DBState),
      (paycall v n p j k bo d).db.idempotency_keys = d.idempotency_keys ∨
      (∃ r : SuccessResponse, (paycall v n p j k bo d).response = .ok r ∧ k ≠ "" ∧
        (paycall v n p j k bo d).db.idempotency_keys =
          d.idempotency_keys.filter (fun e => e.key ≠ k) ++
            [{ key := k, response := r, expires_at := n + 120 * 1000 }])) :=
  c6_idempotency_write_policy c9Verifier 0 "p1" "j1" "k1" failBody liveDb
    liveQuote (Or.inr rfl) rfl rfl rfl

/-- C1 fails on the code: the handler validates the quote synchronously
(`settleStep1`), then suspends at `await verifier.verifySpend` and only marks
the quote used after resuming (`settleStep2`) — with a plain unconditional
`UPDATE`, not a compare-and-set. In the event-loop interleaving where both
requests run their validation before either resumes (A₁ B₁ A₂ B₂), both
observe the quote `active`: both settle with 200, two verified payments are
recorded against the one quote, and nobody ever observes `QuoteNotActive`.
Sequentially the guarantee does hold — the third conjunct shows the second
of two back-to-back settlements failing with the 409 — so the breakage is
precisely the concurrent case the claim is about. -/
theorem c1_concurrent_double_settlement :
    settleStep1 0 "" (some liveBody) liveDb =
      (.verifying liveQuote liveBody, liveDb) ∧
    ((settleStep2 (freeVerify "r1" 0) 0 "pA" "jA" ""
        liveQuote liveBody liveDb).1.isOk = true ∧
     (settleStep2 (freeVerify "r1" 0) 0 "pB" "jB" "" liveQuote liveBody
        (settleStep2 (freeVerify "r1" 0) 0 "pA" "jA" ""
          liveQuote liveBody liveDb).2).1.isOk = true ∧
     ((settleStep2 (freeVerify "r1" 0) 0 "pB" "jB" "" liveQuote liveBody
        (settleStep2 (freeVerify "r1" 0) 0 "pA" "jA" ""
          liveQuote liveBody liveDb).2).2.payments.map Payment.quote_id) =
       ["q1", "q1"] ∧
     ((settleStep2 (freeVerify "r1" 0) 0 "pB" "jB" "" liveQuote liveBody
        (settleStep2 (freeVerify "r1" 0) 0 "pA" "jA" ""
          liveQuote liveBody liveDb).2).2.getQuote "q1").map Quote.status =
       some QuoteStatus.used) ∧
    (paycall (freeVerify "r1" 0) 0 "pB" "jB" "" (some liveBody)
        (paycall (freeVerify "r1" 0) 0 "pA" "jA" "" (some liveBody) liveDb).db).response =
      .expiredOrMissingQuote :=
  ⟨rfl, ⟨rfl, rfl, rfl, rfl⟩, rfl⟩

/-- C7 fails on the code: `createQuote` awaits the ASP round lookup with no
guard, so a rejecting lookup propagates out of the call before any row is
inserted — the quote is not issued, contradicting the claim that the round
hint is best-effort. Here a lookup failing with `asp_unreachable` makes
issuance itself fail. -/
theorem c7_counterexample :
    createQuote (.error "asp_unreachable") "rk" "aspu" 0 "q1" "n1" "summarize"
      none { quotes := [], payments := [], jobs := [], idempotency_keys := [] } =
      .error "asp_unreachable" :=
  rfl

/-- C7 amended: a failure to obtain the settlement round hint aborts quote
issuance — the error propagates and no quote is persisted or returned (for a
non-empty endpoint; an empty endpoint fails first with its own error) —
while a successful lookup persists and returns an `active` quote carrying
the round hint. -/
theorem c7_amended :
    (∀ (e rk au : String) (nowMs : ℕ) (qid nonce endpoint : String)
      (us : Option Units) (db : DBState),
      createQuote (.error e) rk au nowMs qid nonce endpoint us db =
        if endpoint = "" then .error "endpoint is required" else .error e) ∧
    (∀ (round : RoundInfo) (rk au : String) (nowMs : ℕ)
      (qid nonce endpoint : String) (us : Option Units) (db : DBState),
      endpoint ≠ "" →
      createQuote (.ok round) rk au nowMs qid nonce endpoint us db =
        .ok ({ endpoint := endpoint, units := us.getD { tokens := some 1000 },
               price_sats := pricingFor endpoint (us.getD { tokens := some 1000 }),
               expires_at := nowMs + 30000, quote_id := qid, asp_url := au,
               receiver_pubkey := rk, round_hint := round.roundId },
             db.createQuote
               { id := qid, endpoint := endpoint,
                 units := us.getD { tokens := some 1000 },
                 price_sats := pricingFor endpoint (us.getD { tokens := some 1000 }),
                 expires_at := nowMs + 30000, nonce := nonce,
                 receiver_pubkey := rk, asp_url := au,
                 status := QuoteStatus.active, created_at := nowMs })) := by
  constructor
  · intro e rk au nowMs qid nonce endpoint us db
    by_cases he : endpoint = ""
    · rw [if_pos he]
      unfold createQuote
      rw [if_pos he]
    · rw [if_neg he]
      unfold createQuote
      rw [if_neg he]
  · intro round rk au nowMs qid nonce endpoint us db he
    unfold createQuote
    rw [if_neg he]

/-- C10: the compute worker reads `value` without validating it, so a
`square` (or `double`) job with no `value` still completes: `executeJob`
marks the row `completed` and returns status ok with the NaN (non-numeric)
output — while a `summarize` job missing its required `text` fails. -/
theorem c10_compute_missing_value :
    executeJob (computeDb "square") 0 "j1" =
      .ok ({ status := JRStatus.ok, result := some (nanOutput "square") },
        { computeDb "square" with jobs := [{ computeJob "square" with
            status := JobStatus.completed, result := some (nanOutput "square"),
            completed_at := some 0 }] }) ∧
    executeJob (computeDb "double") 0 "j1" =
      .ok ({ status := JRStatus.ok, result := some (nanOutput "double") },
        { computeDb "double" with jobs := [{ computeJob "double" with
            status := JobStatus.completed, result := some (nanOutput "double"),
            completed_at := some 0 }] }) ∧
    (∀ op : String, ∀ q : ℚ,
      (nanOutput op).obj? "output" ≠ some (JSVal.num q)) ∧
    executeJob summarizeDbNoText 0 "j1" =
      .ok ({ status := JRStatus.error, error := some "text is required" },
        { summarizeDbNoText with jobs := [{ summarizeJobNoText with
            status := JobStatus.failed, error_message := some "text is required",
            completed_at := some 0 }] }) := by
  refine ⟨rfl, rfl, ?_, rfl⟩
  intro op q h
  simp only [nanOutput, JSVal.obj?, List.lookup,
    show (("output" == "operation") = false) from rfl,
    show (("output" == "input") = false) from rfl] at h
  cases h

end MeteredApi
